import Mathlib

/-
  Verification development for the mqttc client engine (src/src/client.rs).
  The Rust client is shallowly embedded: the mutable `Client` struct becomes a
  record threaded through pure functions; every stream write is recorded in a
  `List Packet` log returned alongside the new state; time (Instant, keep-alive
  deadlines, sleeps) is not modelled, and stream reads are driven by an explicit
  list of read events.  Fallible operations return `Except Error`.
-/

namespace Mqttc

/-- Delivery guarantee, mirroring mqtt3::QoS. -/
inductive QoS
  | AtMostOnce
  | AtLeastOnce
  | ExactlyOnce
deriving DecidableEq, Repr

/-- A user-visible publication, mirroring mqtt3::Message.  Topic paths and
payload bytes are abstracted to `String` and `List Nat`: their parsing and
encoding live in the external mqtt3 crate. -/
structure Message where
  topic : String
  qos : QoS
  retain : Bool
  pid : Option Nat
  payload : List Nat
deriving DecidableEq, Repr

/-- CONNACK return code, mirroring mqtt3::ConnectReturnCode. -/
inductive ConnectReturnCode
  | Accepted
  | RefusedProtocolVersion
  | RefusedIdentifierRejected
  | ServerUnavailable
  | BadUsernamePassword
  | NotAuthorized
deriving DecidableEq, Repr

/-- CONNACK payload, mirroring mqtt3::Connack. -/
structure Connack where
  session_present : Bool
  code : ConnectReturnCode
deriving DecidableEq, Repr

/-- One (filter, requested qos) pair of a SUBSCRIBE, mirroring
mqtt3::SubscribeTopic. -/
structure SubscribeTopic where
  topic_path : String
  qos : QoS
deriving DecidableEq, Repr

/-- A sent SUBSCRIBE, mirroring mqtt3::Subscribe. -/
structure Subscribe where
  pid : Nat
  topics : List SubscribeTopic
deriving DecidableEq, Repr

/-- SUBACK per-topic return code, mirroring mqtt3::SubscribeReturnCodes. -/
inductive SubscribeReturnCodes
  | Success (qos : QoS)
  | Failure
deriving DecidableEq, Repr

/-- SUBACK payload, mirroring mqtt3::Suback. -/
structure Suback where
  pid : Nat
  return_codes : List SubscribeReturnCodes
deriving DecidableEq, Repr

/-- A sent UNSUBSCRIBE, mirroring mqtt3::Unsubscribe. -/
structure Unsubscribe where
  pid : Nat
  topics : List String
deriving DecidableEq, Repr

/-- Last-will message, mirroring mqtt3::LastWill. -/
structure LastWill where
  topic : String
  message : String
  qos : QoS
  retain : Bool
deriving DecidableEq, Repr

/-- CONNECT payload, mirroring mqtt3::Connect (the protocol level stands for
Protocol::MQTT(n)). -/
structure Connect where
  protocol : Nat
  keep_alive : Nat
  client_id : String
  clean_session : Bool
  last_will : Option LastWill
  username : Option String
  password : Option String
deriving DecidableEq, Repr

/-- MQTT control packets as dispatched by client.rs, mirroring mqtt3::Packet.
The publish constructor carries the already-decoded Message
(Message::from_pub; byte-level decoding is the external codec's job). -/
inductive Packet
  | connect (c : Connect)
  | connack (c : Connack)
  | publish (m : Message)
  | puback (pid : Nat)
  | pubrec (pid : Nat)
  | pubrel (pid : Nat)
  | pubcomp (pid : Nat)
  | subscribe (s : Subscribe)
  | suback (s : Suback)
  | unsubscribe (u : Unsubscribe)
  | unsuback (pid : Nat)
  | pingreq
  | pingresp
  | disconnect
deriving DecidableEq, Repr

/-- Modelled from the spec: error.rs is not under src/.  The variant set is the
one used by client.rs, matching spec section 7 (IoError stands for the generic
transport or codec error produced by the From conversions). -/
inductive Error
  | Timeout
  | Disconnected
  | ConnectionAbort
  | HandshakeFailed
  | ConnectionRefused (code : ConnectReturnCode)
  | AlreadyConnected
  | ProtocolViolation
  | UnhandledPuback (pid : Nat)
  | UnhandledPubrec (pid : Nat)
  | UnhandledPubrel (pid : Nat)
  | UnhandledPubcomp (pid : Nat)
  | UnrecognizedPacket
  | IncommingStorageAbsent
  | OutgoingStorageAbsent
  | StorageMiss
  | InvalidUrlScheme (scheme : String)
  | InvalidTopic
  | IoError
deriving DecidableEq, Repr

/-- Modelled from the spec: lib.rs is not under src/.  The three-state client
lifecycle of spec section 3, as matched on by client.rs. -/
inductive ClientState
  | Handshake
  | Connected
  | Disconnected
deriving DecidableEq, Repr

/-- Modelled from the spec: lib.rs is not under src/.  Reconnect policy of spec
section 4.11 (the duration of ReconnectAfter is in seconds; sleeping is not
modelled). -/
inductive ReconnectMethod
  | ForeverDisconnect
  | ReconnectAfter (secs : Nat)
deriving DecidableEq, Repr

/-- Modelled from the spec: lib.rs is not under src/.  PubOpt encodes the
(qos, retain) pair (spec section 6). -/
structure PubOpt where
  qos : QoS
  retain : Bool
deriving DecidableEq, Repr

/-- Modelled from the spec: sub.rs is not under src/.  A registry entry
(spec section 3): pid of the granting SUBACK exchange, the filter, the granted
qos. -/
structure Subscription where
  pid : Nat
  topic_path : String
  qos : QoS
deriving DecidableEq, Repr

/-- Modelled from the spec: sub.rs is not under src/.  Subscription's
to_subscribe_topic, used by Client::_resubscribe: re-request the filter at the
granted qos. -/
def Subscription.to_subscribe_topic (s : Subscription) : SubscribeTopic :=
  { topic_path := s.topic_path, qos := s.qos }

/-- Modelled from the spec: store.rs is not under src/.  Spec section 4.1: a
store is a straight mapping from packet identifier to message. -/
abbrev Store := List (Nat × Message)

/-- Modelled from the spec: store.rs is not under src/.  Lookup by pid. -/
def storeGet : Store → Nat → Option Message
  | [], _ => none
  | kv :: rest, pid => if kv.1 = pid then some kv.2 else storeGet rest pid

/-- Modelled from the spec: store.rs is not under src/.  Idempotent removal of
every entry keyed by pid. -/
def storeDelete : Store → Nat → Store
  | [], _ => []
  | kv :: rest, pid =>
    if kv.1 = pid then storeDelete rest pid else kv :: storeDelete rest pid

/-- Modelled from the spec: store.rs is not under src/.  put persists a message
keyed by its pid, overwriting any existing entry (Message::pid is present for
every stored message; unwrap is modelled by getD). -/
def storePut (st : Store) (m : Message) : Store :=
  (m.pid.getD 0, m) :: storeDelete st (m.pid.getD 0)

/-- Assoc-list lookup for the subscription registry (std HashMap in the
source; iteration order abstracted to list order). -/
def mapLookup : List (String × Subscription) → String → Option Subscription
  | [], _ => none
  | kv :: rest, k => if kv.1 = k then some kv.2 else mapLookup rest k

/-- HashMap::remove on the registry: drop every entry with the given key. -/
def mapRemove : List (String × Subscription) → String → List (String × Subscription)
  | [], _ => []
  | kv :: rest, k =>
    if kv.1 = k then mapRemove rest k else kv :: mapRemove rest k

/-- HashMap::insert on the registry: replace any entry with the same key. -/
def mapInsert (m : List (String × Subscription)) (k : String) (v : Subscription) :
    List (String × Subscription) :=
  (k, v) :: mapRemove m k

/-- Modelled from the spec: PacketIdentifier::next lives in the external mqtt3
crate.  Spec section 4.3: increment modulo two to the 16, skipping zero on
wrap. -/
def pidNext (n : Nat) : Nat :=
  if (n + 1) % 65536 = 0 then 1 else (n + 1) % 65536

/-- ClientOptions (client.rs lines 30-42), with the connector-independent
fields.  keep_alive is in seconds; protocol is the MQTT level. -/
structure ClientOptions where
  protocol : Nat
  keep_alive : Option Nat
  clean_session : Bool
  client_id : Option String
  last_will : Option LastWill
  username : Option String
  password : Option String
  reconnect : ReconnectMethod
  incomming_store : Option Store
  outgoing_store : Option Store
deriving DecidableEq, Repr

/-- ClientOptions::new (client.rs lines 45-58): defaults. -/
def ClientOptions.new : ClientOptions :=
  { protocol := 4
    keep_alive := some 30
    clean_session := true
    client_id := none
    last_will := none
    username := none
    password := none
    reconnect := ReconnectMethod.ForeverDisconnect
    incomming_store := some []
    outgoing_store := some [] }

/-- ClientOptions::_generate_connect_packet (client.rs lines 194-210).
client_id is unwrapped in the source (connect_with guarantees presence);
modelled with getD. -/
def _generate_connect_packet (opts : ClientOptions) : Connect :=
  { protocol := opts.protocol
    keep_alive := opts.keep_alive.getD 0
    client_id := opts.client_id.getD ""
    clean_session := opts.clean_session
    last_will := opts.last_will
    username := opts.username
    password := opts.password }

/-- The Client state (client.rs lines 213-235).  The stream and connector are
replaced by the event-list and write-log threading of the functions below;
last_flush (an Instant) is not modelled. -/
structure Client where
  state : ClientState
  opts : ClientOptions
  session_present : Bool
  last_pid : Nat
  await_ping : Bool
  incomming_pub : List Message
  incomming_rec : List Message
  incomming_rel : List Nat
  outgoing_ack : List Message
  outgoing_rec : List Message
  outgoing_comp : List Nat
  await_suback : List Subscribe
  await_unsuback : List Unsubscribe
  subscriptions : List (String × Subscription)
deriving DecidableEq, Repr

/-- Result alias mirroring error::Result. -/
abbrev MqttResult (α : Type) := Except Error α

/-- is_ssl (client.rs lines 17-23), on the URL's scheme.  Note the source
returns Ok(true) for the plaintext schemes tcp and mqtt and Ok(false) for the
TLS schemes tls, ssl and mqtts. -/
def is_ssl (scheme : String) : Except Unit Bool :=
  if scheme = "tcp" ∨ scheme = "mqtt" then Except.ok true
  else if scheme = "tls" ∨ scheme = "ssl" ∨ scheme = "mqtts" then Except.ok false
  else Except.error ()

/-- default_port (client.rs lines 25-27): 8883 when is_ssl says true, else
1883. -/
def default_port (scheme : String) : Except Unit Nat :=
  (is_ssl scheme).map (fun b => if b then 8883 else 1883)

/-- The transport chosen by ClientOptions::connect. -/
structure ConnectTransport where
  use_tls : Bool
  port : Nat
deriving DecidableEq, Repr

/-- ClientOptions::connect, transport-selection part (client.rs lines
132-141): is_ssl errors become InvalidUrlScheme; the SslConnector is chosen
exactly when is_ssl returned true; the port is the URL's explicit port or the
default_port result.  Socket establishment itself is out of scope. -/
def connect_transport (scheme : String) (explicit_port : Option Nat) :
    MqttResult ConnectTransport :=
  match is_ssl scheme with
  | Except.error _ => Except.error (Error.InvalidUrlScheme scheme)
  | Except.ok ssl =>
    match explicit_port with
    | some p => Except.ok { use_tls := ssl, port := p }
    | none =>
      match default_port scheme with
      | Except.error _ => Except.error (Error.InvalidUrlScheme scheme)
      | Except.ok dp => Except.ok { use_tls := ssl, port := dp }

/-- Client::_next_pid (client.rs lines 760-764). -/
def _next_pid (c : Client) : Nat × Client :=
  let p := pidNext c.last_pid
  (p, { c with last_pid := p })

/-- Client::_normalized (client.rs lines 449-455).  Checks Connected, no
pending ping, and emptiness of seven queues; outgoing_comp is not inspected. -/
def _normalized (c : Client) : Bool :=
  (c.state == ClientState.Connected) && (!c.await_ping) &&
  (c.outgoing_ack.length == 0) && (c.outgoing_rec.length == 0) &&
  (c.incomming_pub.length == 0) && (c.incomming_rec.length == 0) &&
  (c.incomming_rel.length == 0) && (c.await_suback.length == 0) &&
  (c.await_unsuback.length == 0)

/-- Client::_unbind (client.rs lines 751-758); the stream shutdown is not
modelled. -/
def _unbind (c : Client) : Client :=
  { c with
    await_unsuback := []
    await_suback := []
    await_ping := false
    state := ClientState.Disconnected }

/-- Client::ping (client.rs lines 413-418): set await_ping, write PINGREQ,
flush (stream writes and flushes are modelled as succeeding). -/
def ping (c : Client) : MqttResult Unit × Client × List Packet :=
  (Except.ok (), { c with await_ping := true }, [Packet.pingreq])

/-- Client::_handle_message (client.rs lines 598-632).  pid unwrap for qos>0
is modelled by getD (Message::from_pub supplies a pid for qos>0 messages).
For qos=1 the source pushes the message onto incomming_pub and then pops the
queue's front after the PUBACK flush. -/
def _handle_message (c : Client) (message : Message) :
    MqttResult (Option Message) × Client × List Packet :=
  match message.qos with
  | QoS.AtMostOnce => (Except.ok (some message), c, [])
  | QoS.AtLeastOnce =>
    let pid := message.pid.getD 0
    (Except.ok (some message),
      { c with incomming_pub := (c.incomming_pub ++ [message]).drop 1 },
      [Packet.puback pid])
  | QoS.ExactlyOnce =>
    let pid := message.pid.getD 0
    let c1 := { c with incomming_rec := c.incomming_rec ++ [message] }
    match c1.opts.incomming_store with
    | some store =>
      (Except.ok none,
        { c1 with opts := { c1.opts with incomming_store := some (storePut store message) } },
        [Packet.pubrec pid])
    | none => (Except.error Error.IncommingStorageAbsent, c1, [])

/-- SUBACK application loop (client.rs lines 544-561): zip of return codes
with the sent topics, inserting a Subscription per Success code; Failure codes
are ignored.  Topic-path parsing (to_topic_path) is external and modelled as
succeeding on the stored filter string. -/
def applySuback (subs : List (String × Subscription)) (pid : Nat) :
    List (SubscribeReturnCodes × SubscribeTopic) → List (String × Subscription)
  | [] => subs
  | cs :: rest =>
    match cs.1 with
    | SubscribeReturnCodes.Success qos =>
      applySuback
        (mapInsert subs cs.2.topic_path
          { pid := pid, topic_path := cs.2.topic_path, qos := qos }) pid rest
    | SubscribeReturnCodes.Failure => applySuback subs pid rest

/-- Client::_parse_packet (client.rs lines 457-596).  Returns the dispatch
result, the new client state, and the packets written during dispatch. -/
def _parse_packet (c : Client) (packet : Packet) :
    MqttResult (Option Message) × Client × List Packet :=
  match c.state with
  | ClientState.Handshake =>
    match packet with
    | Packet.connack connack =>
      if connack.code = ConnectReturnCode.Accepted then
        (Except.ok none,
          { c with session_present := connack.session_present,
                   state := ClientState.Connected }, [])
      else (Except.error (Error.ConnectionRefused connack.code), c, [])
    | _ => (Except.error Error.HandshakeFailed, c, [])
  | ClientState.Connected =>
    match packet with
    | Packet.connack _ => (Except.error Error.AlreadyConnected, c, [])
    | Packet.publish m => _handle_message c m
    | Packet.puback pid =>
      match c.outgoing_ack with
      | [] => (Except.error (Error.UnhandledPuback pid), c, [])
      | message :: rest =>
        if message.pid = some pid then
          (Except.ok none, { c with outgoing_ack := rest }, [])
        else (Except.error (Error.UnhandledPuback pid), { c with outgoing_ack := rest }, [])
    | Packet.pubrec pid =>
      match c.outgoing_rec with
      | [] => (Except.error (Error.UnhandledPubrec pid), c, [])
      | message :: rest =>
        if message.pid = some pid then
          let c1 := { c with outgoing_rec := rest,
                             outgoing_comp := c.outgoing_comp ++ [pid] }
          match c1.opts.outgoing_store with
          | some store =>
            (Except.ok none,
              { c1 with opts := { c1.opts with outgoing_store := some (storeDelete store pid) } },
              [Packet.pubrel pid])
          | none => (Except.error Error.IncommingStorageAbsent, c1, [Packet.pubrel pid])
        else (Except.error (Error.UnhandledPubrec pid), { c with outgoing_rec := rest }, [])
    | Packet.pubrel pid =>
      match c.incomming_rec with
      | [] => (Except.error (Error.UnhandledPubrel pid), c, [])
      | message :: rest =>
        if message.pid = some pid then
          let c1 := { c with incomming_rec := rest }
          match c1.opts.incomming_store with
          | some store =>
            match storeGet store pid with
            | some stored =>
              (Except.ok (some stored),
                { c1 with incomming_rel := c1.incomming_rel ++ [pid] }, [])
            | none => (Except.error Error.StorageMiss, c1, [])
          | none => (Except.error Error.IncommingStorageAbsent, c1, [])
        else (Except.error (Error.UnhandledPubrel pid), { c with incomming_rec := rest }, [])
    | Packet.pubcomp pid =>
      match c.outgoing_comp with
      | [] => (Except.error (Error.UnhandledPubcomp pid), c, [])
      | _ :: rest => (Except.ok none, { c with outgoing_comp := rest }, [])
    | Packet.suback suback =>
      match c.await_suback with
      | [] => (Except.error Error.ProtocolViolation, c, [])
      | subscribe :: rest =>
        let c1 := { c with await_suback := rest }
        if subscribe.pid = suback.pid then
          if subscribe.topics.length = suback.return_codes.length then
            let subsNew :=
              applySuback c1.subscriptions subscribe.pid
                (suback.return_codes.zip subscribe.topics)
            (Except.ok none, { c1 with subscriptions := subsNew }, [])
          else (Except.error Error.ProtocolViolation, c1, [])
        else (Except.error Error.ProtocolViolation, c1, [])
    | Packet.unsuback pid =>
      match c.await_unsuback with
      | [] => (Except.error Error.ProtocolViolation, c, [])
      | unsubscribe :: rest =>
        let c1 := { c with await_unsuback := rest }
        if unsubscribe.pid = pid then
          (Except.ok none,
            { c1 with subscriptions := unsubscribe.topics.foldl mapRemove c1.subscriptions },
            [])
        else (Except.error Error.ProtocolViolation, c1, [])
    | Packet.pingresp => (Except.ok none, { c with await_ping := false }, [])
    | _ => (Except.error Error.UnrecognizedPacket, c, [])
  | ClientState.Disconnected => (Except.error Error.ConnectionAbort, c, [])

/-- Client::complete (client.rs lines 420-435): pop the back of incomming_rel
unconditionally, then compare with the requested pid; on a match write
PUBCOMP, flush, and delete from the incoming store. -/
def complete (c : Client) (pid : Nat) : MqttResult Unit × Client × List Packet :=
  let same_pid := c.incomming_rel.getLast?
  let c1 := { c with incomming_rel := c.incomming_rel.dropLast }
  if same_pid = some pid then
    match c1.opts.incomming_store with
    | some store =>
      (Except.ok (),
        { c1 with opts := { c1.opts with incomming_store := some (storeDelete store pid) } },
        [Packet.pubcomp pid])
    | none => (Except.error Error.IncommingStorageAbsent, c1, [Packet.pubcomp pid])
  else (Except.error Error.ProtocolViolation, c1, [])

/-- Client::_publish (client.rs lines 663-700).  Topic-name validation
(to_topic_name) is external and modelled as accepting the given string. -/
def _publish (c : Client) (topic : String) (payload : List Nat) (pubopt : PubOpt) :
    MqttResult Unit × Client × List Packet :=
  let message : Message :=
    { topic := topic, qos := pubopt.qos, retain := pubopt.retain,
      pid := none, payload := payload }
  match message.qos with
  | QoS.AtMostOnce => (Except.ok (), c, [Packet.publish message])
  | QoS.AtLeastOnce =>
    let (pid, c1) := _next_pid c
    let message := { message with pid := some pid }
    (Except.ok (), { c1 with outgoing_ack := c1.outgoing_ack ++ [message] },
      [Packet.publish message])
  | QoS.ExactlyOnce =>
    let (pid, c1) := _next_pid c
    let message := { message with pid := some pid }
    match c1.opts.outgoing_store with
    | some store =>
      (Except.ok (),
        { c1 with opts := { c1.opts with outgoing_store := some (storePut store message) },
                  outgoing_rec := c1.outgoing_rec ++ [message] },
        [Packet.publish message])
    | none => (Except.error Error.OutgoingStorageAbsent, c1, [])

/-- Client::_subscribe (client.rs lines 702-712), on already-converted
subscribe topics (the ToSubTopics conversion is external). -/
def _subscribe (c : Client) (topics : List SubscribeTopic) :
    MqttResult Unit × Client × List Packet :=
  let (pid, c1) := _next_pid c
  let subscribe : Subscribe := { pid := pid, topics := topics }
  (Except.ok (), { c1 with await_suback := c1.await_suback ++ [subscribe] },
    [Packet.subscribe subscribe])

/-- Client::_unsubscribe (client.rs lines 714-724). -/
def _unsubscribe (c : Client) (topics : List String) :
    MqttResult Unit × Client × List Packet :=
  let (pid, c1) := _next_pid c
  let unsubscribe : Unsubscribe := { pid := pid, topics := topics }
  (Except.ok (), { c1 with await_unsuback := c1.await_unsuback ++ [unsubscribe] },
    [Packet.unsubscribe unsubscribe])

/-- Client::_resubscribe (client.rs lines 726-732): collect every registry
value into one topic list and subscribe once (the Result is discarded). -/
def _resubscribe (c : Client) : Client × List Packet :=
  let subs := c.subscriptions.map (fun kv => kv.2.to_subscribe_topic)
  let r := _subscribe c subs
  (r.2.1, r.2.2)

/-- Client::_disconnect (client.rs lines 734-736): write a DISCONNECT packet.
Unused by the public API: the call in PubSub::disconnect is commented out. -/
def _disconnect (c : Client) : Client × List Packet :=
  (c, [Packet.disconnect])

/-- PubSub::disconnect for Client (client.rs lines 256-260): the
self._disconnect() call is commented out, so only _flush runs (which touches
last_flush and the stream, neither modelled); nothing is written and the
session state is returned unchanged. -/
def disconnect (c : Client) : MqttResult Unit × Client × List Packet :=
  (Except.ok (), c, [])

/-- Client::_connect (client.rs lines 655-661): write CONNECT, flush. -/
def _connect (c : Client) : Client × List Packet :=
  (c, [Packet.connect (_generate_connect_packet c.opts)])

/-- std::io::ErrorKind values distinguished by Client::accept. -/
inductive IoErrKind
  | WouldBlock
  | TimedOut
  | UnexpectedEof
  | ConnectionRefused
  | ConnectionReset
  | ConnectionAborted
  | Other
deriving DecidableEq, Repr

/-- One outcome of a stream.read_packet attempt, supplied by the environment.
deadline stands for an accept call finding elapsed time at or past the
keep-alive (client.rs lines 321-327), which synthesizes Timeout without
reading. -/
inductive ReadEvent
  | deadline
  | packet (p : Packet)
  | eofMqtt
  | ioErr (k : IoErrKind)
  | otherMqtt
deriving DecidableEq, Repr

/-- The outcome of a driver call: the source-level result, the client, the
unconsumed read events, and the packets written. -/
abbrev DriverOut (α : Type) := MqttResult α × Client × List ReadEvent × List Packet

mutual

/-- Client::accept (client.rs lines 317-397), driven by the read-event list.
Fuel bounds the mutual recursion through the reconnect path; none means the
fuel or the event list ran out. -/
def accept : Nat → Client → List ReadEvent → Option (DriverOut (Option Message))
  | 0, _, _ => none
  | n + 1, c, inp =>
    match c.state with
    | ClientState.Connected | ClientState.Handshake =>
      match inp with
      | [] => none
      | ev :: rest =>
        match ev with
        | ReadEvent.deadline => some (Except.error Error.Timeout, c, rest, [])
        | ReadEvent.packet p =>
          let pr := _parse_packet c p
          match pr.1 with
          | Except.ok m => some (Except.ok m, pr.2.1, rest, pr.2.2)
          | Except.error e =>
            if e = Error.ConnectionAbort then
              some (Except.error Error.ConnectionAbort, _unbind pr.2.1, rest, pr.2.2)
            else some (Except.error e, pr.2.1, rest, pr.2.2)
        | ReadEvent.eofMqtt =>
          match _try_reconnect n c rest with
          | none => none
          | some (true, c1, rest1, out1) => some (Except.ok none, c1, rest1, out1)
          | some (false, c1, rest1, out1) =>
            some (Except.error Error.Disconnected, c1, rest1, out1)
        | ReadEvent.ioErr k =>
          match k with
          | IoErrKind.WouldBlock | IoErrKind.TimedOut =>
            some (Except.error Error.Timeout, c, rest, [])
          | IoErrKind.UnexpectedEof | IoErrKind.ConnectionRefused
          | IoErrKind.ConnectionReset | IoErrKind.ConnectionAborted =>
            match _try_reconnect n (_unbind c) rest with
            | none => none
            | some (true, c1, rest1, out1) => some (Except.ok none, c1, rest1, out1)
            | some (false, c1, rest1, out1) =>
              some (Except.error Error.Disconnected, c1, rest1, out1)
          | IoErrKind.Other => some (Except.error Error.IoError, _unbind c, rest, [])
        | ReadEvent.otherMqtt => some (Except.error Error.IoError, c, rest, [])
    | ClientState.Disconnected =>
      match _try_reconnect n c inp with
      | none => none
      | some (true, c1, inp1, out1) => some (Except.ok none, c1, inp1, out1)
      | some (false, c1, inp1, out1) =>
        some (Except.error Error.Disconnected, c1, inp1, out1)

/-- Client::_try_reconnect (client.rs lines 643-653); the sleep is not
modelled and the reconnect result is discarded. -/
def _try_reconnect : Nat → Client → List ReadEvent → Option (Bool × Client × List ReadEvent × List Packet)
  | 0, _, _ => none
  | n + 1, c, inp =>
    match c.opts.reconnect with
    | ReconnectMethod.ForeverDisconnect => some (false, c, inp, [])
    | ReconnectMethod.ReconnectAfter _ =>
      match reconnect n c inp with
      | none => none
      | some (_, c1, inp1, out1) => some (true, c1, inp1, out1)

/-- Client::reconnect (client.rs lines 399-411): no-op when already Connected;
otherwise re-establish the stream (modelled as succeeding), redo the
handshake, then _resubscribe unconditionally. -/
def reconnect : Nat → Client → List ReadEvent → Option (DriverOut Unit)
  | 0, _, _ => none
  | n + 1, c, inp =>
    if c.state = ClientState.Connected then some (Except.ok (), c, inp, [])
    else
      match _handshake n c inp with
      | none => none
      | some (Except.error e, c1, inp1, out1) => some (Except.error e, c1, inp1, out1)
      | some (Except.ok _, c1, inp1, out1) =>
        let rs := _resubscribe c1
        some (Except.ok (), rs.1, inp1, out1 ++ rs.2)

/-- Client::_handshake (client.rs lines 634-641): enter Handshake, send
CONNECT, then await (whose message, if any, is discarded). -/
def _handshake : Nat → Client → List ReadEvent → Option (DriverOut Unit)
  | 0, _, _ => none
  | n + 1, c, inp =>
    let cw := _connect { c with state := ClientState.Handshake }
    match await n cw.1 inp with
    | none => none
    | some (Except.error e, c1, inp1, out1) =>
      some (Except.error e, c1, inp1, cw.2 ++ out1)
    | some (Except.ok _, c1, inp1, out1) =>
      some (Except.ok (), c1, inp1, cw.2 ++ out1)

/-- Client::await (client.rs lines 286-315): loop accept until a message
arrives or the engine is normalized; Timeout while Connected triggers a ping
(no ping pending) or an unbind (ping already pending); other errors
propagate. -/
def await : Nat → Client → List ReadEvent → Option (DriverOut (Option Message))
  | 0, _, _ => none
  | n + 1, c, inp =>
    match accept n c inp with
    | none => none
    | some (r, c1, inp1, out1) =>
      match r with
      | Except.ok (some m) => some (Except.ok (some m), c1, inp1, out1)
      | Except.ok none =>
        if _normalized c1 then some (Except.ok none, c1, inp1, out1)
        else
          match await n c1 inp1 with
          | none => none
          | some (r2, c2, inp2, out2) => some (r2, c2, inp2, out1 ++ out2)
      | Except.error e =>
        if e = Error.Timeout then
          if c1.state = ClientState.Connected then
            if !c1.await_ping then
              if _normalized (ping c1).2.1 then
                some (Except.ok none, (ping c1).2.1, inp1, out1 ++ (ping c1).2.2)
              else
                match await n (ping c1).2.1 inp1 with
                | none => none
                | some (r2, c2, inp2, out2) =>
                  some (r2, c2, inp2, out1 ++ (ping c1).2.2 ++ out2)
            else
              if _normalized (_unbind c1) then
                some (Except.ok none, _unbind c1, inp1, out1)
              else
                match await n (_unbind c1) inp1 with
                | none => none
                | some (r2, c3, inp2, out2) => some (r2, c3, inp2, out1 ++ out2)
          else some (Except.error Error.Timeout, c1, inp1, out1)
        else some (Except.error e, c1, inp1, out1)

end

/-- The qos of the last Success return code paired with filter t in a SUBACK
application list, if any; used to characterize applySuback. -/
def lastSuccessQos : List (SubscribeReturnCodes × SubscribeTopic) → String → Option QoS
  | [], _ => none
  | cs :: rest, t =>
    match lastSuccessQos rest t with
    | some q => some q
    | none =>
      match cs.1 with
      | SubscribeReturnCodes.Success q => if cs.2.topic_path = t then some q else none
      | SubscribeReturnCodes.Failure => none

/-- A Connected client with default options and every queue empty. -/
def clientBase : Client :=
  { state := ClientState.Connected
    opts := ClientOptions.new
    session_present := false
    last_pid := 1
    await_ping := false
    incomming_pub := []
    incomming_rec := []
    incomming_rel := []
    outgoing_ack := []
    outgoing_rec := []
    outgoing_comp := []
    await_suback := []
    await_unsuback := []
    subscriptions := [] }

/-- clientBase with one pid stuck in outgoing_comp. -/
def clientComp : Client := { clientBase with outgoing_comp := [1] }

/-- A registry entry for filter a. -/
def subA : Subscription := { pid := 1, topic_path := "a", qos := QoS.AtLeastOnce }

/-- A disconnected client still holding a subscription for filter a. -/
def clientRe : Client :=
  { clientBase with state := ClientState.Disconnected, subscriptions := [("a", subA)] }

/-- A qos=1 in-flight publication with pid 1. -/
def msgAck : Message :=
  { topic := "t", qos := QoS.AtLeastOnce, retain := false, pid := some 1, payload := [104] }

/-- clientBase with one qos=1 publication awaiting PUBACK. -/
def clientAck : Client := { clientBase with outgoing_ack := [msgAck] }

/-- clientBase in the Handshake state. -/
def clientHs : Client := { clientBase with state := ClientState.Handshake }

/-- A qos=2 in-flight inbound publication with pid 1. -/
def msgRec : Message :=
  { topic := "t", qos := QoS.ExactlyOnce, retain := false, pid := some 1, payload := [104] }

/-- clientBase with mismatch material in every ack queue. -/
def clientMix : Client :=
  { clientBase with
    outgoing_ack := [msgAck]
    outgoing_rec := [msgRec]
    incomming_rec := [msgRec]
    incomming_rel := [1] }

/-- A pending SUBSCRIBE for filters x, y, z. -/
def subXYZ : Subscribe :=
  { pid := 2
    topics := [{ topic_path := "x", qos := QoS.AtLeastOnce },
               { topic_path := "y", qos := QoS.AtLeastOnce },
               { topic_path := "z", qos := QoS.AtMostOnce }] }

/-- A registry entry for filter y granted earlier. -/
def subY : Subscription := { pid := 1, topic_path := "y", qos := QoS.AtMostOnce }

/-- A client holding a subscription for y while awaiting a SUBACK that will
report Failure for y. -/
def clientSub : Client :=
  { clientBase with await_suback := [subXYZ], subscriptions := [("y", subY)] }

/-- The SUBACK answering subXYZ: success for x and z, failure for y. -/
def subackXYZ : Suback :=
  { pid := 2
    return_codes := [SubscribeReturnCodes.Success QoS.AtLeastOnce,
                     SubscribeReturnCodes.Failure,
                     SubscribeReturnCodes.Success QoS.AtMostOnce] }

/-- A qos=2 inbound message with pid 7. -/
def msgIn : Message :=
  { topic := "t", qos := QoS.ExactlyOnce, retain := false, pid := some 7, payload := [104, 105] }

/-- The SUBSCRIBE that reconnecting clientRe emits. -/
def subReSent : Subscribe :=
  { pid := 2, topics := [{ topic_path := "a", qos := QoS.AtLeastOnce }] }

/-- clientRe after its reconnect against a CONNACK with session_present set. -/
def clientReAfter : Client :=
  { clientRe with
    state := ClientState.Connected
    session_present := true
    last_pid := 2
    await_suback := [subReSent] }

/-- The registry entry granted for x by subackXYZ. -/
def subXafter : Subscription := { pid := 2, topic_path := "x", qos := QoS.AtLeastOnce }

/-- The registry entry granted for z by subackXYZ. -/
def subZafter : Subscription := { pid := 2, topic_path := "z", qos := QoS.AtMostOnce }

/-- clientSub after dispatching subackXYZ: x and z granted, the pre-existing
entry for y untouched even though its return code was Failure. -/
def clientSubAfter : Client :=
  { clientSub with
    await_suback := []
    subscriptions := [("z", subZafter), ("x", subXafter), ("y", subY)] }

end Mqttc

namespace Mqttc

/-- Deleting a pid from a store removes every entry under that pid. -/
theorem storeGet_storeDelete (st : Store) (pid : Nat) :
    storeGet (storeDelete st pid) pid = none := by
  induction st with
  | nil => rfl
  | cons kv rest ih =>
    by_cases h : kv.1 = pid
    · simpa [storeDelete, h] using ih
    · simpa [storeDelete, storeGet, h] using ih

/-- Removing key k from the registry does not disturb lookups of other keys. -/
theorem mapLookup_mapRemove_ne (m : List (String × Subscription)) (k t : String)
    (h : t ≠ k) :
    mapLookup (mapRemove m k) t = mapLookup m t := by
  induction m with
  | nil => rfl
  | cons kv rest ih =>
    by_cases hk : kv.1 = k
    · rw [mapRemove, if_pos hk, ih, mapLookup]
      have hkt : ¬ kv.1 = t := by rw [hk]; exact fun hh => h hh.symm
      simp [hkt]
    · rw [mapRemove, if_neg hk]
      by_cases ht : kv.1 = t
      · simp [mapLookup, ht]
      · simp [mapLookup, ht, ih]

/-- Inserting under key k makes lookups of k return the new value. -/
theorem mapLookup_mapInsert_same (m : List (String × Subscription)) (k : String)
    (v : Subscription) : mapLookup (mapInsert m k v) k = some v := by
  simp [mapInsert, mapLookup]

/-- Inserting under key k does not disturb lookups of other keys. -/
theorem mapLookup_mapInsert_ne (m : List (String × Subscription)) (k t : String)
    (v : Subscription) (h : t ≠ k) :
    mapLookup (mapInsert m k v) t = mapLookup m t := by
  rw [mapInsert, mapLookup]
  have : ¬ k = t := fun hh => h hh.symm
  simp [this, mapLookup_mapRemove_ne m k t h]

/-- Registry content after a SUBACK application: a filter maps to the last
Success code granted for it, and is untouched when every code for it is a
Failure (or it is not mentioned at all). -/
theorem mapLookup_applySuback (pairs : List (SubscribeReturnCodes × SubscribeTopic))
    (subs : List (String × Subscription)) (pid : Nat) (t : String) :
    mapLookup (applySuback subs pid pairs) t =
      match lastSuccessQos pairs t with
      | some q => some { pid := pid, topic_path := t, qos := q }
      | none => mapLookup subs t := by
  induction pairs generalizing subs with
  | nil => rfl
  | cons cs rest ih =>
    rcases cs with ⟨code, stopic⟩
    cases code with
    | Failure =>
      rw [applySuback, lastSuccessQos]
      simp only []
      rw [ih]
      cases hrest : lastSuccessQos rest t <;> simp [hrest]
    | Success q0 =>
      rw [applySuback, lastSuccessQos]
      simp only []
      rw [ih]
      cases hrest : lastSuccessQos rest t with
      | some q => simp [hrest]
      | none =>
        simp only [hrest]
        by_cases hp : stopic.topic_path = t
        · subst hp
          simp [mapLookup_mapInsert_same]
        · have : t ≠ stopic.topic_path := fun hh => hp hh.symm
          simp [hp, mapLookup_mapInsert_ne _ _ _ _ this]

/-- The _normalized flag spelled out as a conjunction of field facts. -/
theorem normalized_iff (c : Client) :
    _normalized c = true ↔
      (c.state = ClientState.Connected ∧ c.await_ping = false ∧
       c.outgoing_ack = [] ∧ c.outgoing_rec = [] ∧ c.incomming_pub = [] ∧
       c.incomming_rec = [] ∧ c.incomming_rel = [] ∧ c.await_suback = [] ∧
       c.await_unsuback = []) := by
  simp [_normalized, Bool.and_eq_true, beq_iff_eq, List.length_eq_zero,
    Bool.not_eq_true', and_assoc]

/-- await yields Ok(None) only through its _normalized check, so the client it
leaves behind satisfies _normalized. -/
theorem await_ok_none_normalized :
    ∀ (n : Nat) (c : Client) (inp : List ReadEvent) (c' : Client)
      (inp' : List ReadEvent) (out : List Packet),
      await n c inp = some (Except.ok none, c', inp', out) →
      _normalized c' = true := by
  intro n
  induction n with
  | zero => intro c inp c' inp' out h; simp [await] at h
  | succ n ih =>
    intro c inp c' inp' out h
    rw [await] at h
    split at h
    · exact absurd h (by simp)
    · split at h
      · simp at h
      · split at h
        · rename_i hn
          simp only [Option.some.injEq, Prod.mk.injEq] at h
          obtain ⟨-, hc, -, -⟩ := h
          rw [← hc]; exact hn
        · split at h
          · simp at h
          · rename_i hb
            simp only [Option.some.injEq, Prod.mk.injEq] at h
            obtain ⟨hr2, hc2, -, -⟩ := h
            subst hr2; subst hc2
            exact ih _ _ _ _ _ hb
      · split at h
        · split at h
          · split at h
            · split at h
              · rename_i hn
                simp only [Option.some.injEq, Prod.mk.injEq] at h
                obtain ⟨-, hc, -, -⟩ := h
                rw [← hc]; exact hn
              · split at h
                · simp at h
                · rename_i hb
                  simp only [Option.some.injEq, Prod.mk.injEq] at h
                  obtain ⟨hr2, hc2, -, -⟩ := h
                  subst hr2; subst hc2
                  exact ih _ _ _ _ _ hb
            · split at h
              · rename_i hn
                simp only [Option.some.injEq, Prod.mk.injEq] at h
                obtain ⟨-, hc, -, -⟩ := h
                rw [← hc]; exact hn
              · split at h
                · simp at h
                · rename_i hb
                  simp only [Option.some.injEq, Prod.mk.injEq] at h
                  obtain ⟨hr2, hc2, -, -⟩ := h
                  subst hr2; subst hc2
                  exact ih _ _ _ _ _ hb
          · simp at h
        · simp at h

/-- Claim C1 (amended): whenever await returns Ok(None), the client it leaves
behind is Connected with no ping pending and with outgoing_ack, outgoing_rec,
incomming_pub, incomming_rec, incomming_rel, await_suback and await_unsuback
all empty.  The original claim also required outgoing_comp to be empty, which
_normalized does not check (see the counterexample). -/
theorem C1_await_none_normalized (n : Nat) (c : Client) (inp : List ReadEvent)
    (c' : Client) (inp' : List ReadEvent) (out : List Packet)
    (h : await n c inp = some (Except.ok none, c', inp', out)) :
    c'.state = ClientState.Connected ∧ c'.await_ping = false ∧
    c'.outgoing_ack = [] ∧ c'.outgoing_rec = [] ∧ c'.incomming_pub = [] ∧
    c'.incomming_rec = [] ∧ c'.incomming_rel = [] ∧ c'.await_suback = [] ∧
    c'.await_unsuback = [] :=
  (normalized_iff c').1 (await_ok_none_normalized n c inp c' inp' out h)

/-- Witness for C1: a concrete run of await that returns Ok(None). -/
theorem C1_await_none_normalized_witness :
    clientBase.state = ClientState.Connected ∧ clientBase.await_ping = false ∧
    clientBase.outgoing_ack = [] ∧ clientBase.outgoing_rec = [] ∧
    clientBase.incomming_pub = [] ∧ clientBase.incomming_rec = [] ∧
    clientBase.incomming_rel = [] ∧ clientBase.await_suback = [] ∧
    clientBase.await_unsuback = [] :=
  C1_await_none_normalized 2 clientBase [ReadEvent.packet Packet.pingresp]
    clientBase [] [] rfl

/-- Counterexample to C1 as stated: await returns Ok(None) on a client whose
outgoing_comp still holds pid 1, because _normalized does not inspect
outgoing_comp. -/
theorem C1_outgoing_comp_not_checked :
    await 2 clientComp [ReadEvent.packet Packet.pingresp]
      = some (Except.ok none, clientComp, [], []) ∧
    clientComp.outgoing_comp = [1] := ⟨rfl, rfl⟩

/-- Claim C2 (code bug): evaluating the source scheme handling shows the
inversion: the plaintext schemes tcp and mqtt get the TLS connector and
default port 8883, while tls, ssl and mqtts get plaintext and port 1883; only
the InvalidUrlScheme part of the claim holds. -/
theorem C2_scheme_inversion :
    connect_transport "tcp" none = Except.ok { use_tls := true, port := 8883 } ∧
    connect_transport "mqtt" none = Except.ok { use_tls := true, port := 8883 } ∧
    connect_transport "tls" none = Except.ok { use_tls := false, port := 1883 } ∧
    connect_transport "ssl" none = Except.ok { use_tls := false, port := 1883 } ∧
    connect_transport "mqtts" none = Except.ok { use_tls := false, port := 1883 } ∧
    connect_transport "http" none = Except.error (Error.InvalidUrlScheme "http") :=
  ⟨rfl, rfl, rfl, rfl, rfl, rfl⟩

/-- Claim C3 (amended): after a successful reconnect the engine re-sends every
filter of the subscription registry in exactly one outbound SUBSCRIBE,
regardless of the session_present value reported by the fresh CONNACK (the
source calls _resubscribe unconditionally after the handshake). -/
theorem C3_reconnect_resubscribes (n : Nat) (c : Client) (inp : List ReadEvent)
    (sp : Bool)
    (hstate : c.state = ClientState.Disconnected)
    (hping : c.await_ping = false)
    (hipub : c.incomming_pub = []) (hirec : c.incomming_rec = [])
    (hirel : c.incomming_rel = []) (hoack : c.outgoing_ack = [])
    (horec : c.outgoing_rec = []) (hsuba : c.await_suback = [])
    (hunsub : c.await_unsuback = []) :
    reconnect (n + 1 + 1 + 1 + 1) c
        (ReadEvent.packet (Packet.connack { session_present := sp, code := ConnectReturnCode.Accepted }) :: inp)
      = some (Except.ok (),
          { c with
            state := ClientState.Connected,
            session_present := sp,
            last_pid := pidNext c.last_pid,
            await_suback := [{ pid := pidNext c.last_pid,
                               topics := c.subscriptions.map (fun kv => kv.2.to_subscribe_topic) }] },
          inp,
          [Packet.connect (_generate_connect_packet c.opts),
           Packet.subscribe { pid := pidNext c.last_pid,
                              topics := c.subscriptions.map (fun kv => kv.2.to_subscribe_topic) }]) := by
  obtain ⟨cs, opts, sp0, lp, ap, ipub, irec, irel, oack, orec, ocomp, asba, aunsb, subs⟩ := c
  simp only [] at hstate hping hipub hirec hirel hoack horec hsuba hunsub
  subst hstate hping hipub hirec hirel hoack horec hsuba hunsub
  rfl

/-- Witness for C3: a concrete disconnected client with one subscription,
reconnected against a CONNACK with session_present set. -/
theorem C3_reconnect_resubscribes_witness :
    reconnect (0 + 1 + 1 + 1 + 1) clientRe
        [ReadEvent.packet (Packet.connack { session_present := true, code := ConnectReturnCode.Accepted })]
      = some (Except.ok (),
          { clientRe with
            state := ClientState.Connected,
            session_present := true,
            last_pid := pidNext clientRe.last_pid,
            await_suback := [{ pid := pidNext clientRe.last_pid,
                               topics := clientRe.subscriptions.map (fun kv => kv.2.to_subscribe_topic) }] },
          [],
          [Packet.connect (_generate_connect_packet clientRe.opts),
           Packet.subscribe { pid := pidNext clientRe.last_pid,
                              topics := clientRe.subscriptions.map (fun kv => kv.2.to_subscribe_topic) }]) :=
  C3_reconnect_resubscribes 0 clientRe [] true rfl rfl rfl rfl rfl rfl rfl rfl rfl

/-- Counterexample to C3 as stated: reconnecting clientRe against a CONNACK
reporting session_present=true still writes a SUBSCRIBE for the registry, so
the re-subscription is not restricted to the session_present=false case. -/
theorem C3_resubscribe_unconditional :
    reconnect 4 clientRe
        [ReadEvent.packet (Packet.connack { session_present := true, code := ConnectReturnCode.Accepted })]
      = some (Except.ok (), clientReAfter, [],
          [Packet.connect (_generate_connect_packet ClientOptions.new),
           Packet.subscribe subReSent]) ∧
    clientReAfter.session_present = true := ⟨rfl, rfl⟩

/-- Claim C4: the qos=2 outbound lifecycle.  Publishing stores the message and
appends it to outgoing_rec; a PUBREC matching the head pops it, writes PUBREL,
pushes the pid onto outgoing_comp and deletes the store entry; a PUBCOMP pops
outgoing_comp (UnhandledPubcomp when outgoing_comp is empty); afterwards no
trace of the message remains in outgoing_rec, outgoing_comp or the store. -/
theorem C4_qos2_outbound_lifecycle (c : Client) (topic : String) (payload : List Nat)
    (retain : Bool) (st : Store) (p : Nat) (m : Message) (c1 c2 c3 : Client)
    (hstate : c.state = ClientState.Connected)
    (horec : c.outgoing_rec = [])
    (hcomp : c.outgoing_comp = [])
    (hstore : c.opts.outgoing_store = some st)
    (hp : p = pidNext c.last_pid)
    (hm : m = { topic := topic, qos := QoS.ExactlyOnce, retain := retain,
                pid := some p, payload := payload })
    (hc1 : c1 = { c with
        last_pid := p,
        opts := { c.opts with outgoing_store := some (storePut st m) },
        outgoing_rec := [m] })
    (hc2 : c2 = { c1 with
        outgoing_rec := [],
        outgoing_comp := [p],
        opts := { c1.opts with outgoing_store := some (storeDelete (storePut st m) p) } })
    (hc3 : c3 = { c2 with outgoing_comp := [] }) :
    _publish c topic payload { qos := QoS.ExactlyOnce, retain := retain }
        = (Except.ok (), c1, [Packet.publish m]) ∧
    storeGet (storePut st m) p = some m ∧
    _parse_packet c1 (Packet.pubrec p) = (Except.ok none, c2, [Packet.pubrel p]) ∧
    storeGet (storeDelete (storePut st m) p) p = none ∧
    _parse_packet c2 (Packet.pubcomp p) = (Except.ok none, c3, []) ∧
    c3.outgoing_rec = [] ∧ c3.outgoing_comp = [] ∧
    _parse_packet c (Packet.pubcomp p) = (Except.error (Error.UnhandledPubcomp p), c, []) := by
  obtain ⟨cs, opts, sp0, lp, ap, ipub, irec, irel, oack, orec, ocomp, asba, aunsb, subs⟩ := c
  obtain ⟨proto, ka, cls, cid, lw, un, pw, rm, ist, ost⟩ := opts
  simp only [] at hstate horec hcomp hstore hp
  subst hstate horec hcomp hstore hp hm hc1 hc2 hc3
  refine ⟨rfl, ?_, ?_, storeGet_storeDelete _ _, rfl, rfl, rfl, rfl⟩
  · simp [storePut, storeGet]
  · simp [_parse_packet]

/-- Witness for C4: clientBase publishing a qos=2 message, leaving no trace of
pid 2 in the store after the PUBREC. -/
theorem C4_qos2_outbound_lifecycle_witness :
    storeGet (storeDelete (storePut []
        { topic := "t", qos := QoS.ExactlyOnce, retain := false,
          pid := some 2, payload := [104] }) 2) 2 = none :=
  (C4_qos2_outbound_lifecycle clientBase "t" [104] false [] 2 _ _ _ _
    rfl rfl rfl rfl rfl rfl rfl rfl rfl).2.2.2.1

/-- Claim C5: the qos=2 inbound lifecycle.  A qos=2 PUBLISH is stored, queued
on incomming_rec and answered with PUBREC without surfacing; the message is
surfaced exactly at the matching PUBREL, which moves the pid to incomming_rel;
complete pops incomming_rel from the back, writes PUBCOMP and deletes the
store entry, while a complete with any other pid yields ProtocolViolation. -/
theorem C5_qos2_inbound_lifecycle (c : Client) (st : Store) (p : Nat) (m : Message)
    (c1 c2 c3 : Client)
    (hstate : c.state = ClientState.Connected)
    (hirec : c.incomming_rec = [])
    (hirel : c.incomming_rel = [])
    (hstore : c.opts.incomming_store = some st)
    (hqos : m.qos = QoS.ExactlyOnce)
    (hpid : m.pid = some p)
    (hc1 : c1 = { c with
        incomming_rec := [m],
        opts := { c.opts with incomming_store := some (storePut st m) } })
    (hc2 : c2 = { c1 with incomming_rec := [], incomming_rel := [p] })
    (hc3 : c3 = { c2 with
        incomming_rel := [],
        opts := { c2.opts with incomming_store := some (storeDelete (storePut st m) p) } }) :
    _parse_packet c (Packet.publish m) = (Except.ok none, c1, [Packet.pubrec p]) ∧
    _parse_packet c1 (Packet.pubrel p) = (Except.ok (some m), c2, []) ∧
    complete c2 p = (Except.ok (), c3, [Packet.pubcomp p]) ∧
    storeGet (storeDelete (storePut st m) p) p = none ∧
    (∀ q, q ≠ p → complete c2 q = (Except.error Error.ProtocolViolation,
        { c2 with incomming_rel := [] }, [])) := by
  obtain ⟨cs, opts, sp0, lp, ap, ipub, irec, irel, oack, orec, ocomp, asba, aunsb, subs⟩ := c
  obtain ⟨proto, ka, cls, cid, lw, un, pw, rm, ist, ost⟩ := opts
  obtain ⟨mt, mq, mr, mp, mpl⟩ := m
  simp only [] at hstate hirec hirel hstore hqos hpid
  subst hstate hirec hirel hstore hqos hpid hc1 hc2 hc3
  refine ⟨rfl, ?_, ?_, storeGet_storeDelete _ _, ?_⟩
  · simp [_parse_packet, storePut, storeGet]
  · simp [complete]
  · intro q hq
    have hne : ¬ (p = q) := fun hh => hq hh.symm
    simp [complete, hne]

/-- Witness for C5: msgIn (pid 7) received by clientBase leaves no trace of
pid 7 in the incoming store after the full lifecycle. -/
theorem C5_qos2_inbound_lifecycle_witness :
    storeGet (storeDelete (storePut [] msgIn) 7) 7 = none :=
  (C5_qos2_inbound_lifecycle clientBase [] 7 msgIn _ _ _
    rfl rfl rfl rfl rfl rfl rfl rfl rfl).2.2.2.1

/-- Claim C6: a PUBACK in the Connected state pops exactly the head of
outgoing_ack when the head carries the PUBACK pid (no error); an empty queue
or a differing head pid yields UnhandledPuback(pid). -/
theorem C6_puback_fifo (c : Client) (pid : Nat)
    (hstate : c.state = ClientState.Connected) :
    (c.outgoing_ack = [] →
      _parse_packet c (Packet.puback pid)
        = (Except.error (Error.UnhandledPuback pid), c, [])) ∧
    (∀ m rest, c.outgoing_ack = m :: rest → m.pid = some pid →
      _parse_packet c (Packet.puback pid)
        = (Except.ok none, { c with outgoing_ack := rest }, [])) ∧
    (∀ m rest, c.outgoing_ack = m :: rest → m.pid ≠ some pid →
      _parse_packet c (Packet.puback pid)
        = (Except.error (Error.UnhandledPuback pid), { c with outgoing_ack := rest }, [])) := by
  refine ⟨?_, ?_, ?_⟩
  · intro hq; simp [_parse_packet, hstate, hq]
  · intro m rest hq hm; simp [_parse_packet, hstate, hq, hm]
  · intro m rest hq hm; simp [_parse_packet, hstate, hq, hm]

/-- Witness for C6: clientAck receiving the matching PUBACK for pid 1. -/
theorem C6_puback_fifo_witness :
    _parse_packet clientAck (Packet.puback 1)
      = (Except.ok none, { clientAck with outgoing_ack := [] }, []) :=
  (C6_puback_fifo clientAck 1 rfl).2.1 msgAck [] rfl rfl

/-- Claim C7: in the Handshake state only CONNACK is accepted (anything else
is HandshakeFailed); a refused CONNACK yields ConnectionRefused with its code;
an accepted CONNACK records session_present and moves to Connected. -/
theorem C7_handshake_dispatch (c : Client) (ca : Connack)
    (hstate : c.state = ClientState.Handshake) :
    (∀ p : Packet, (∀ x : Connack, p ≠ Packet.connack x) →
      _parse_packet c p = (Except.error Error.HandshakeFailed, c, [])) ∧
    (ca.code ≠ ConnectReturnCode.Accepted →
      _parse_packet c (Packet.connack ca)
        = (Except.error (Error.ConnectionRefused ca.code), c, [])) ∧
    (ca.code = ConnectReturnCode.Accepted →
      _parse_packet c (Packet.connack ca)
        = (Except.ok none, { c with
            session_present := ca.session_present,
            state := ClientState.Connected }, [])) := by
  refine ⟨?_, ?_, ?_⟩
  · intro p hp
    cases p
    case connack x => exact absurd rfl (hp x)
    all_goals simp [_parse_packet, hstate]
  · intro hcode; simp [_parse_packet, hstate, hcode]
  · intro hcode; simp [_parse_packet, hstate, hcode]

/-- Witness for C7: clientHs accepting a CONNACK with session_present
cleared. -/
theorem C7_handshake_dispatch_witness :
    _parse_packet clientHs
        (Packet.connack { session_present := false, code := ConnectReturnCode.Accepted })
      = (Except.ok none, { clientHs with
          session_present := false, state := ClientState.Connected }, []) :=
  (C7_handshake_dispatch clientHs
    { session_present := false, code := ConnectReturnCode.Accepted } rfl).2.2 rfl

/-- Claim C8 (amended): a SUBACK pops the head of await_suback; a pid mismatch
or a return-code count differing from the sent topic count is a
ProtocolViolation; otherwise each filter whose last return code is a Success
is registered at the granted qos, while filters with only Failure codes (and
unmentioned filters) keep their previous registry entry, with no error.  The
original claim said a Failure code leaves the registry without that filter,
which fails when the filter was already registered (see the
counterexample). -/
theorem C8_suback_handling (c : Client) (sa : Suback) (subreq : Subscribe)
    (rest : List Subscribe)
    (hstate : c.state = ClientState.Connected)
    (hq : c.await_suback = subreq :: rest) :
    (subreq.pid ≠ sa.pid →
      _parse_packet c (Packet.suback sa)
        = (Except.error Error.ProtocolViolation, { c with await_suback := rest }, [])) ∧
    (subreq.pid = sa.pid → subreq.topics.length ≠ sa.return_codes.length →
      _parse_packet c (Packet.suback sa)
        = (Except.error Error.ProtocolViolation, { c with await_suback := rest }, [])) ∧
    (subreq.pid = sa.pid → subreq.topics.length = sa.return_codes.length →
      _parse_packet c (Packet.suback sa)
        = (Except.ok none, { c with
            await_suback := rest,
            subscriptions := applySuback c.subscriptions subreq.pid
              (sa.return_codes.zip subreq.topics) }, []) ∧
      (∀ t q, lastSuccessQos (sa.return_codes.zip subreq.topics) t = some q →
        mapLookup (applySuback c.subscriptions subreq.pid
            (sa.return_codes.zip subreq.topics)) t
          = some { pid := subreq.pid, topic_path := t, qos := q }) ∧
      (∀ t, lastSuccessQos (sa.return_codes.zip subreq.topics) t = none →
        mapLookup (applySuback c.subscriptions subreq.pid
            (sa.return_codes.zip subreq.topics)) t
          = mapLookup c.subscriptions t)) := by
  refine ⟨?_, ?_, ?_⟩
  · intro hpid; simp [_parse_packet, hstate, hq, hpid]
  · intro hpid hlen; simp [_parse_packet, hstate, hq, hpid, hlen]
  · intro hpid hlen
    refine ⟨by simp [_parse_packet, hstate, hq, hpid, hlen], ?_, ?_⟩
    · intro t q hlast; rw [mapLookup_applySuback]; simp [hlast]
    · intro t hlast; rw [mapLookup_applySuback]; simp [hlast]

/-- Witness for C8: clientSub dispatching subackXYZ (success, failure,
success). -/
theorem C8_suback_handling_witness :
    _parse_packet clientSub (Packet.suback subackXYZ)
      = (Except.ok none, { clientSub with
          await_suback := [],
          subscriptions := applySuback clientSub.subscriptions subXYZ.pid
            (subackXYZ.return_codes.zip subXYZ.topics) }, []) :=
  ((C8_suback_handling clientSub subackXYZ subXYZ [] rfl rfl).2.2 rfl rfl).1

/-- Counterexample to C8 as stated: the Failure code for y raises no error but
also removes nothing, so the pre-existing registry entry for y survives the
SUBACK; the registry is not left without that filter. -/
theorem C8_failure_keeps_existing_subscription :
    _parse_packet clientSub (Packet.suback subackXYZ)
      = (Except.ok none, clientSubAfter, []) ∧
    mapLookup clientSubAfter.subscriptions "y" = some subY := ⟨rfl, rfl⟩

/-- Claim C9: on a pid mismatch the rejecting ack paths have already removed
the queue element: PUBACK, PUBREC and PUBREL pop the head of outgoing_ack,
outgoing_rec and incomming_rec even when returning their Unhandled errors, and
a mismatched complete pops the back of incomming_rel before returning
ProtocolViolation; in each case the queue is changed. -/
theorem C9_error_paths_still_pop (c : Client) (pid : Nat)
    (hstate : c.state = ClientState.Connected) :
    (∀ m rest, c.outgoing_ack = m :: rest → m.pid ≠ some pid →
      _parse_packet c (Packet.puback pid)
        = (Except.error (Error.UnhandledPuback pid), { c with outgoing_ack := rest }, []) ∧
      rest ≠ c.outgoing_ack) ∧
    (∀ m rest, c.outgoing_rec = m :: rest → m.pid ≠ some pid →
      _parse_packet c (Packet.pubrec pid)
        = (Except.error (Error.UnhandledPubrec pid), { c with outgoing_rec := rest }, []) ∧
      rest ≠ c.outgoing_rec) ∧
    (∀ m rest, c.incomming_rec = m :: rest → m.pid ≠ some pid →
      _parse_packet c (Packet.pubrel pid)
        = (Except.error (Error.UnhandledPubrel pid), { c with incomming_rec := rest }, []) ∧
      rest ≠ c.incomming_rec) ∧
    (c.incomming_rel ≠ [] → c.incomming_rel.getLast? ≠ some pid →
      complete c pid
        = (Except.error Error.ProtocolViolation,
            { c with incomming_rel := c.incomming_rel.dropLast }, []) ∧
      c.incomming_rel.dropLast ≠ c.incomming_rel) := by
  refine ⟨?_, ?_, ?_, ?_⟩
  · intro m rest hq hm
    refine ⟨by simp [_parse_packet, hstate, hq, hm], ?_⟩
    rw [hq]; exact fun hh => List.cons_ne_self m rest hh.symm
  · intro m rest hq hm
    refine ⟨by simp [_parse_packet, hstate, hq, hm], ?_⟩
    rw [hq]; exact fun hh => List.cons_ne_self m rest hh.symm
  · intro m rest hq hm
    refine ⟨by simp [_parse_packet, hstate, hq, hm], ?_⟩
    rw [hq]; exact fun hh => List.cons_ne_self m rest hh.symm
  · intro hne hlast
    refine ⟨by simp [complete, hlast], ?_⟩
    intro hh
    have hlen := congrArg List.length hh
    rw [List.length_dropLast] at hlen
    have hpos : 0 < c.incomming_rel.length := List.length_pos.mpr hne
    omega

/-- Witness for C9: clientMix receiving a PUBACK for an unexpected pid still
pops its outgoing_ack head. -/
theorem C9_error_paths_still_pop_witness :
    _parse_packet clientMix (Packet.puback 9)
      = (Except.error (Error.UnhandledPuback 9), { clientMix with outgoing_ack := [] }, []) :=
  ((C9_error_paths_still_pop clientMix 9 rfl).1 msgAck [] rfl (by decide)).1

/-- Claim C10: disconnect writes no packet at all (in particular no
DISCONNECT, since the _disconnect call is commented out) and leaves the whole
session state unchanged. -/
theorem C10_disconnect_writes_nothing (c : Client) :
    disconnect c = (Except.ok (), c, []) ∧
    Packet.disconnect ∉ (disconnect c).2.2 := ⟨rfl, by simp [disconnect]⟩

end Mqttc
